import Mathlib

/-
  Formal model of the clincore platform core, shallowly embedded from the
  Python sources under src/clincore and the alembic migrations.  Each
  definition mirrors one source function or storage policy; theorems below
  settle the specification claims against these definitions.
-/

namespace ClinCore

/-! ## Python json.dumps string escaping

    Model of the string-escaping part of the CPython json serializer.
    With ensure_ascii=True (the default), every character outside the
    printable ASCII range 0x20..0x7e is escaped as a backslash-u sequence
    with four lowercase hex digits, using surrogate pairs above 0xffff.
    With ensure_ascii=False only the quote, the backslash and control
    characters below 0x20 are escaped.  Both modes share the two-character
    shortcuts for backslash, quote, backspace, tab, newline, formfeed and
    carriage return. -/

/-- Lowercase hexadecimal digit for a value below 16. -/
def hexDigitChar (n : Nat) : Char :=
  if n < 10 then Char.ofNat (48 + n) else Char.ofNat (87 + n)

/-- Four lowercase hex digits of a value below 0x10000. -/
def u4hex (n : Nat) : String :=
  String.mk [hexDigitChar (n / 4096 % 16), hexDigitChar (n / 256 % 16),
             hexDigitChar (n / 16 % 16), hexDigitChar (n % 16)]

/-- A backslash-u escape sequence as produced by the Python json module. -/
def uEscape (n : Nat) : String := "\\u" ++ u4hex n

/-- Escapes shared by both serializer modes: quote, backslash and the
    control shortcuts; other control characters go through uEscape. -/
def escShort (c : Char) : Option String :=
  if c = '\\' then some "\\\\"
  else if c = '\"' then some "\\\""
  else if c.toNat = 8 then some "\\b"
  else if c.toNat = 9 then some "\\t"
  else if c.toNat = 10 then some "\\n"
  else if c.toNat = 12 then some "\\f"
  else if c.toNat = 13 then some "\\r"
  else none

/-- One character rendered by json.dumps with ensure_ascii=True. -/
def escCharAscii (c : Char) : String :=
  match escShort c with
  | some s => s
  | none =>
    if c.toNat < 32 then uEscape c.toNat
    else if c.toNat < 127 then String.singleton c
    else if c.toNat < 65536 then uEscape c.toNat
    else
      uEscape (55296 + (c.toNat - 65536) / 1024) ++
        uEscape (56320 + (c.toNat - 65536) % 1024)

/-- One character rendered by json.dumps with ensure_ascii=False. -/
def escCharUtf8 (c : Char) : String :=
  match escShort c with
  | some s => s
  | none =>
    if c.toNat < 32 then uEscape c.toNat
    else String.singleton c

/-- Body of a JSON string literal under ensure_ascii=True. -/
def pyJsonEscapeAscii (s : String) : String :=
  s.data.foldl (fun acc c => acc ++ escCharAscii c) ""

/-- Body of a JSON string literal under ensure_ascii=False. -/
def pyJsonEscapeUtf8 (s : String) : String :=
  s.data.foldl (fun acc c => acc ++ escCharUtf8 c) ""

/-! ## Ranking snapshots and their canonical serialization

    A ranking snapshot entry is the dict built in finalize_case:
    a rank (int), a remedy name (str) and a score (float).  The score is
    carried as its decimal rendering: json.dumps renders the same float
    value through the same repr algorithm at finalize and verify time, so
    the rendering is common to both sides and can be carried verbatim. -/

structure RankingEntry where
  rank : Int
  remedy : String
  score_repr : String
deriving DecidableEq, Repr

/-- One snapshot entry as JSON with keys sorted ascending by code point:
    rank, then remedy, then score (sort_keys=True on these three keys),
    with separators a comma and a colon only. -/
def entryJson (esc : String → String) (e : RankingEntry) : String :=
  "\x7b\"rank\":" ++ toString e.rank ++ ",\"remedy\":\"" ++ esc e.remedy ++
    "\",\"score\":" ++ e.score_repr ++ "\x7d"

/-- A snapshot list serialized as a JSON array, order preserved. -/
def snapshotJson (esc : String → String) (l : List RankingEntry) : String :=
  "[" ++ String.intercalate "," (l.map (entryJson esc)) ++ "]"

/-- Canonical bytes computed in finalize_case:
    json.dumps(ranking_snapshot, sort_keys=True, separators=(",", ":"))
    with ensure_ascii left at its default True, then UTF-8 encoded.
    UTF-8 encoding is injective, so the string stands for the bytes. -/
def finalize_canonical_bytes (l : List RankingEntry) : String :=
  snapshotJson pyJsonEscapeAscii l

/-- Canonical bytes computed in verify_replay:
    json.dumps(snapshot_obj, sort_keys=True, separators=(",", ":"),
    ensure_ascii=False), then UTF-8 encoded. -/
def verify_canonical_bytes (l : List RankingEntry) : String :=
  snapshotJson pyJsonEscapeUtf8 l

/-- The deterministic placeholder ranking row inserted by finalize_case
    in v0.3.x: rank 1, remedy TestRemedy, raw score 1.0. -/
def placeholderEntry : RankingEntry :=
  { rank := 1, remedy := "TestRemedy", score_repr := "1.0" }

/-- A snapshot entry whose remedy name contains a non-ASCII character. -/
def accentedEntry : RankingEntry :=
  { rank := 1, remedy := "é", score_repr := "1.0" }

/-! ## SQL helpers

    Three-valued SQL comparison on nullable columns: the plain equality
    operator is TRUE only when both sides are non-null and equal, while
    IS NOT DISTINCT FROM treats two nulls as equal. -/

/-- SQL equality on nullable values: NULL on either side is not TRUE. -/
def sqlEq {α : Type} [DecidableEq α] (a b : Option α) : Bool :=
  match a, b with
  | some x, some y => decide (x = y)
  | _, _ => false

/-- SQL IS NOT DISTINCT FROM on nullable values. -/
def sqlNotDistinct {α : Type} [DecidableEq α] (a b : Option α) : Bool :=
  decide (a = b)

/-- SQL IS DISTINCT FROM on nullable values. -/
def sqlDistinct {α : Type} [DecidableEq α] (a b : Option α) : Bool :=
  !sqlNotDistinct a b

/-! ## The cases table

    Row model of the cases table after migration v036.  Identifiers and
    timestamps are abstracted to naturals; jsonb payloads and the stored
    ranking snapshot are carried as their logical values. -/

structure CaseRow where
  id : Nat
  tenant_id : Nat
  patient_id : Nat
  status : String
  input_payload : String
  random_seed : Option String
  ranking_snapshot : Option (List RankingEntry)
  result_signature : Option String
  finalized_at : Option Nat
  replay_verified_at : Option Nat
  replay_verification_ok : Option Bool
  replay_verification_details : Option String
  billing_status : String
  created_at : Nat
  updated_at : Nat
deriving DecidableEq, Repr

/-- A row-level operation intercepted by a BEFORE UPDATE OR DELETE trigger. -/
inductive TriggerOp where
  | update : CaseRow → CaseRow → TriggerOp
  | delete : CaseRow → TriggerOp

/-- The enforce_case_immutability trigger function as recreated by
    migration v034 (256690bbd45e).  Returns true when the operation is
    permitted and false when the trigger raises.  A delete always raises.
    For an update of a finalized row the trigger permits the update only
    when at least one of the three replay columns is DISTINCT FROM its old
    value and the six checked columns agree: status and result_signature
    under plain SQL equality, and ranking_snapshot, finalized_at,
    input_payload, random_seed under IS NOT DISTINCT FROM.  The
    input_payload column is NOT NULL, so it is compared directly. -/
def enforce_case_immutability : TriggerOp → Bool
  | .delete _ => false
  | .update old new =>
    if old.status = "finalized" then
      (sqlDistinct new.replay_verified_at old.replay_verified_at
          || sqlDistinct new.replay_verification_ok old.replay_verification_ok
          || sqlDistinct new.replay_verification_details old.replay_verification_details)
        && (decide (new.status = old.status)
          && sqlEq new.result_signature old.result_signature
          && sqlNotDistinct new.ranking_snapshot old.ranking_snapshot
          && sqlNotDistinct new.finalized_at old.finalized_at
          && decide (new.input_payload = old.input_payload)
          && sqlNotDistinct new.random_seed old.random_seed)
    else true

/-- A finalized row used to probe the immutability trigger. -/
def trigOld : CaseRow :=
  { id := 1, tenant_id := 7, patient_id := 3, status := "finalized",
    input_payload := "\x7b\x7d", random_seed := some "0",
    ranking_snapshot := some [placeholderEntry],
    result_signature := some "sig", finalized_at := some 10,
    replay_verified_at := none, replay_verification_ok := none,
    replay_verification_details := none, billing_status := "free",
    created_at := 0, updated_at := 0 }

/-- An update of trigOld that stamps a replay column and at the same time
    rewrites the billing_status column, which the trigger does not check. -/
def trigNew : CaseRow :=
  { trigOld with
    replay_verification_ok := some true, billing_status := "paid" }

/-! ## Tenancy gateway (clincore.db.tenant_session)

    The context manager rejects a falsy tenant identity before touching
    the database; otherwise its first statement inside the transaction is
    SET LOCAL app.tenant_id. -/

/-- Outcome of opening a tenant-bound session: either the ValueError
    raised before any statement runs, or the list of statements executed
    so far (the SET LOCAL binding). -/
inductive SessionResult where
  | err : String → SessionResult
  | opened : List String → SessionResult
deriving DecidableEq, Repr

/-- clincore.db.tenant_session.  A missing or empty tenant_id is falsy in
    Python, so the guard raises ValueError immediately; no session is
    created and no statement is executed. -/
def tenant_session (tenant_id : Option String) : SessionResult :=
  match tenant_id with
  | none => .err "tenant_id is required (fail-closed)"
  | some t =>
    if t = "" then .err "tenant_id is required (fail-closed)"
    else .opened ["SET LOCAL app.tenant_id = " ++ t]

/-! ## Row-level security policies

    Evaluation of the USING expression of each tenant-isolation policy at
    one row, given the session variable app.tenant_id (none when unset).
    Tenant identifiers are valid uuid strings; an error value means the
    statement referencing the policy aborts. -/

/-- Policy from migration 0001 on users, patients, cases:
    tenant_id = current_setting(app.tenant_id, true)::uuid.
    With missing_ok=true an unset variable yields NULL, the uuid cast of
    NULL is NULL and the comparison is unknown, so the row is invisible.
    An empty-string value fails the uuid cast. -/
def policy_tenant_isolation_core (row_tenant : String)
    (setting : Option String) : Except String Bool :=
  match setting with
  | none => .ok false
  | some s =>
    if s = "" then .error "invalid input syntax for type uuid"
    else .ok (decide (row_tenant = s))

/-- Policy from migration v035 on access_logs:
    tenant_id = nullif(current_setting(app.tenant_id, true), NULL)::uuid
    with the empty string mapped to NULL by nullif. -/
def policy_tenant_isolation_access_logs (row_tenant : String)
    (setting : Option String) : Except String Bool :=
  match setting with
  | none => .ok false
  | some s =>
    if s = "" then .ok false
    else .ok (decide (row_tenant = s))

/-- Policy from migration v037 on usage_events:
    tenant_id = current_setting(app.tenant_id)::uuid, without the
    missing_ok flag: referencing an unset parameter raises, so a read of
    any row aborts with an error instead of filtering the row out.  The
    v046 policy on mcare_feedback uses the same expression. -/
def policy_usage_events_tenant_isolation (row_tenant : String)
    (setting : Option String) : Except String Bool :=
  match setting with
  | none => .error "unrecognized configuration parameter app.tenant_id"
  | some s =>
    if s = "" then .error "invalid input syntax for type uuid"
    else .ok (decide (row_tenant = s))

/-- The audit_logs table (migration v032) carries a tenant_id column but
    row level security is never enabled on it anywhere in the migration
    chain (it only gets the WORM trigger): with RLS off there is no
    row-visibility filter, so every row is visible to any session, with
    or without a tenant binding. -/
def audit_logs_visibility (_row_tenant : String)
    (_setting : Option String) : Except String Bool :=
  .ok true

/-- The clinical_feedback table (migration v045) likewise carries a
    tenant_id column with row level security never enabled and no policy:
    every row is visible regardless of the tenant binding. -/
def clinical_feedback_visibility (_row_tenant : String)
    (_setting : Option String) : Except String Bool :=
  .ok true

/-- A SELECT over rows carrying the given tenant_id values, filtered by a
    row-visibility policy.  A policy error aborts the whole statement. -/
def run_select (policy : String → Option String → Except String Bool)
    (rows : List String) (setting : Option String) :
    Except String (List String) :=
  match rows with
  | [] => .ok []
  | r :: rest =>
    match policy r setting with
    | .error e => .error e
    | .ok keep =>
      match run_select policy rest setting with
      | .error e => .error e
      | .ok tl => .ok (if keep then r :: tl else tl)

/-! ## Case lifecycle engine (clincore.api.case_engine)

    State of the storage the engine touches: the cases table and the
    case_results table.  The SHA-256 digest is abstracted as a function
    parameter h applied to the canonical bytes; every theorem quantifies
    over it, using only that equal bytes hash equally. -/

structure CaseResultRow where
  id : Nat
  case_id : Nat
  rank : Int
  remedy_name : String
  raw_score : String
deriving DecidableEq, Repr

structure EngineDB where
  cases : List CaseRow
  case_results : List CaseResultRow
deriving DecidableEq, Repr

structure HttpError where
  status : Nat
  detail : String
deriving DecidableEq, Repr

/-- SELECT ... FROM cases WHERE id = :case_id (first row). -/
def lookup_case (cases : List CaseRow) (id : Nat) : Option CaseRow :=
  cases.find? (fun c => c.id = id)

/-- ORDER BY rank ASC, remedy_name ASC via insertion sort. -/
def resultLe (a b : CaseResultRow) : Bool :=
  a.rank < b.rank || (a.rank = b.rank && a.remedy_name ≤ b.remedy_name)

def insertSorted (x : CaseResultRow) : List CaseResultRow → List CaseResultRow
  | [] => [x]
  | y :: ys => if resultLe x y then x :: y :: ys else y :: insertSorted x ys

def sortResults (l : List CaseResultRow) : List CaseResultRow :=
  l.foldr insertSorted []

/-- The finalizing field update applied to a matching row. -/
def finalizeUpd (snapshot : List RankingEntry) (sig : String) (ts : Nat)
    (c : CaseRow) : CaseRow :=
  { c with status := "finalized", finalized_at := some ts,
           ranking_snapshot := some snapshot, result_signature := some sig }

/-- UPDATE cases SET ... WHERE id = :case_id AND status = draft, returning
    the updated table and the statement rowcount. -/
def gated_update (cases : List CaseRow) (id : Nat)
    (snapshot : List RankingEntry) (sig : String) (ts : Nat) :
    List CaseRow × Nat :=
  (cases.map (fun c =>
      if c.id = id && c.status = "draft" then finalizeUpd snapshot sig ts c
      else c),
   (cases.filter (fun c => c.id = id && c.status = "draft")).length)

/-- clincore.api.case_engine.finalize_case under the tenant-bound
    transaction.  h is the hex SHA-256 digest; ts the transaction
    timestamp; resultId the fresh uuid for the inserted case_results row.
    The audit-log append after the gated update carries no decidable
    content for the claims and is omitted from the state. -/
def finalize_case (h : String → String) (db : EngineDB) (id ts resultId : Nat) :
    Except HttpError (EngineDB × String) :=
  match lookup_case db.cases id with
  | none => .error ⟨404, "Case not found"⟩
  | some row =>
    if row.status = "draft" then
      let results2 := db.case_results ++
        [{ id := resultId, case_id := id, rank := 1,
           remedy_name := "TestRemedy", raw_score := "1.0" }]
      let mine := sortResults (results2.filter (fun r => r.case_id = id))
      let snapshot := mine.map (fun r =>
        { rank := r.rank, remedy := r.remedy_name, score_repr := r.raw_score })
      let sig := h (finalize_canonical_bytes snapshot)
      let upd := gated_update db.cases id snapshot sig ts
      if upd.2 = 1 then .ok ({ cases := upd.1, case_results := results2 }, sig)
      else .error ⟨400, "Only draft cases can be finalized"⟩
    else .error ⟨400, "Only draft cases can be finalized"⟩

/-- Outcome of the access-log INSERT that _log_access attempts.  ok: the
    row was inserted.  clientError: the driver raised before the
    statement reached the server, leaving the transaction untouched.
    serverError: the server rejected the statement (constraint violation,
    policy rejection, connection failure); in PostgreSQL this puts the
    enclosing transaction into the aborted state. -/
inductive AppendOutcome where
  | ok : AppendOutcome
  | clientError : String → AppendOutcome
  | serverError : String → AppendOutcome
deriving DecidableEq, Repr

/-- The warning log entries _log_access emits: every exception is caught
    and logged as non-fatal, nothing is re-raised into the handler. -/
def log_access_warnings : AppendOutcome → List String
  | .ok => []
  | .clientError e => ["access_log insert failed (non-fatal): " ++ e]
  | .serverError e => ["access_log insert failed (non-fatal): " ++ e]

/-- Whether the append left the shared transaction aborted.  _log_access
    executes its INSERT on the same session inside the same
    session.begin() transaction as the business statements, with no
    savepoint, so a server-side failure aborts that transaction even
    though the Python exception is swallowed; the COMMIT at tenant_session
    exit then fails and everything is rolled back. -/
def append_aborts : AppendOutcome → Bool
  | .serverError _ => true
  | _ => false

/-- Result of one get_case request: the value the handler returns, whether
    the surrounding tenant-bound transaction committed at context exit,
    and the warnings logged. -/
structure GetCaseOutcome where
  response : Except HttpError CaseRow
  committed : Bool
  warnings : List String

/-- clincore.api.case_engine.get_case: tenant-bound read plus a
    best-effort VIEW access-log append with the given outcome.  An
    HTTPException (missing row) rolls the transaction back; otherwise the
    handler returns the row, and the transaction commits iff the append
    did not abort it. -/
def get_case (db : EngineDB) (id : Nat) (append : AppendOutcome) :
    GetCaseOutcome :=
  match lookup_case db.cases id with
  | none =>
    { response := .error ⟨404, "Case not found"⟩, committed := false,
      warnings := [] }
  | some row =>
    { response := .ok row, committed := !append_aborts append,
      warnings := log_access_warnings append }

/-- The replay_verification_details json built in verify_replay
    (insertion-order keys, default separators). -/
def verifyDetails (expected : Option String) (computed : String)
    (ok : Bool) : String :=
  "\x7b\"expected\": " ++
    (match expected with
     | some e => "\"" ++ e ++ "\""
     | none => "null") ++
    ", \"computed\": \"" ++ computed ++ "\", \"match\": " ++
    (if ok then "true" else "false") ++ "\x7d"

/-- Result of one verify_replay request: the value the handler returns,
    whether the transaction committed, the state persisted after the
    transaction ends (the original state when it rolled back), and the
    warnings logged. -/
structure VerifyOutcome where
  response : Except HttpError (Bool × Option String × String)
  committed : Bool
  db_after : EngineDB
  warnings : List String

/-- clincore.api.case_engine.verify_replay.  Recomputes the canonical
    bytes of the stored snapshot with ensure_ascii=False, compares the
    digest with the stored signature, stamps the three replay columns via
    UPDATE, then attempts the best-effort VERIFY access-log append with
    the given outcome.  The append runs on the same session inside the
    same transaction with no savepoint: when it fails server-side the
    transaction is aborted, the COMMIT at tenant_session exit fails and
    the replay-stamp UPDATE is rolled back, even though the handler
    swallowed the exception and already built its response. -/
def verify_replay (h : String → String) (db : EngineDB) (id ts : Nat)
    (append : AppendOutcome) : VerifyOutcome :=
  match lookup_case db.cases id with
  | none =>
    { response := .error ⟨404, "Case not found"⟩, committed := false,
      db_after := db, warnings := [] }
  | some row =>
    if row.status = "finalized" then
      match row.ranking_snapshot with
      | none =>
        { response := .error ⟨400, "Case has no ranking_snapshot to verify"⟩,
          committed := false, db_after := db, warnings := [] }
      | some snap =>
        let computed := h (verify_canonical_bytes snap)
        let ok := decide (row.result_signature = some computed)
        let cases2 := db.cases.map (fun c =>
          if c.id = id then
            { c with replay_verified_at := some ts,
                     replay_verification_ok := some ok,
                     replay_verification_details :=
                       some (verifyDetails row.result_signature computed ok) }
          else c)
        if append_aborts append then
          { response := .ok (ok, row.result_signature, computed),
            committed := false, db_after := db,
            warnings := log_access_warnings append }
        else
          { response := .ok (ok, row.result_signature, computed),
            committed := true, db_after := { db with cases := cases2 },
            warnings := log_access_warnings append }
    else
      { response := .error ⟨400, "Only finalized cases can be replay-verified"⟩,
        committed := false, db_after := db, warnings := [] }

/-- clincore.api.case_engine.create_case after tenant resolution.  The
    billing gate reads billing_status from an arbitrary existing case row
    of the tenant (SELECT ... LIMIT 1 without ORDER BY, modelled as the
    first matching row) together with the usage_events count, and refuses
    with 402 only when that row exists, reads free, and the count exceeds
    1000.  The insert leaves billing_status at its column default free. -/
def create_case (db : EngineDB) (tenant : Nat) (usage_count : Nat)
    (newId patient ts : Nat) (payload : String) :
    Except HttpError (EngineDB × Nat) :=
  let billing_row := (db.cases.filter (fun c => c.tenant_id = tenant)).head?
  let gate_fails :=
    match billing_row with
    | some row => row.billing_status = "free" && usage_count > 1000
    | none => false
  if gate_fails then
    .error ⟨402, "Free tier limit exceeded. Please upgrade to continue."⟩
  else
    .ok ({ db with cases := db.cases ++
            [{ id := newId, tenant_id := tenant, patient_id := patient,
               status := "draft", input_payload := payload,
               random_seed := some "0", ranking_snapshot := none,
               result_signature := none, finalized_at := none,
               replay_verified_at := none, replay_verification_ok := none,
               replay_verification_details := none,
               billing_status := "free", created_at := ts,
               updated_at := ts }] }, newId)

/-- The tier of a tenant in the sense of the specification: a tenant is in
    the free tier when nothing marks it paid or subscribed; new tenants
    start free (billing_status defaults to free).  Stated from the spec
    wording for comparison with the implemented gate. -/
def claim_free_tier (db : EngineDB) (tenant : Nat) : Bool :=
  (db.cases.filter (fun c => c.tenant_id = tenant)).all
    (fun c => c.billing_status = "free")

/-! ## Rate limiter (clincore.core.rate_limit.TenantRateLimiter)

    Per-tenant deque of request timestamps.  The monotonic clock values
    are modelled as integers (ticks of an arbitrary resolution): the
    algorithm only subtracts and compares timestamps, so it is uniform in
    the choice of the ordered time axis.  Buckets are total over keys with
    the empty deque as the initial value, matching the lazy dict. -/

structure TenantRateLimiter where
  limit : Nat
  window : ℤ
  buckets : String → List ℤ

/-- The constructor defaults: limit=60 requests per window_seconds=60.0,
    with no buckets yet. -/
def TenantRateLimiter.mkDefault : TenantRateLimiter :=
  { limit := 60, window := 60, buckets := fun _ => [] }

/-- The eviction loop: while bucket and bucket[0] <= cutoff, pop left.
    Deques are ordered oldest first, so this drops the leading timestamps
    that are less than or equal to now - window. -/
def rl_evict (window now : ℤ) (dq : List ℤ) : List ℤ :=
  dq.dropWhile (fun t => t ≤ now - window)

/-- TenantRateLimiter.is_allowed at time now: evict, then reject when the
    deque already holds limit or more entries, otherwise record now and
    admit.  Returns the decision and the new limiter state. -/
def TenantRateLimiter.is_allowed (st : TenantRateLimiter) (key : String)
    (now : ℤ) : Bool × TenantRateLimiter :=
  let dq := rl_evict st.window now (st.buckets key)
  if st.limit ≤ dq.length then
    (false, { st with buckets := fun k => if k = key then dq else st.buckets k })
  else
    (true, { st with buckets := fun k => if k = key then dq ++ [now] else st.buckets k })

/-- The admission predicate the claim describes: drop the timestamps
    strictly older than now - window, then admit iff the number of
    remaining timestamps is strictly below the limit.  Stated from the
    claim wording for comparison with is_allowed. -/
def claim_admit (st : TenantRateLimiter) (key : String) (now : ℤ) : Bool :=
  ((st.buckets key).filter (fun t => !(t < now - st.window))).length < st.limit

/-- A limiter with limit 1 whose single bucket holds one timestamp aged
    exactly one window. -/
def rlBoundary : TenantRateLimiter :=
  { limit := 1, window := 60, buckets := fun k => if k = "T" then [0] else [] }

/-- The scenario limiter of the claim: limit=2, window=60s, empty. -/
def rlScenario : TenantRateLimiter :=
  { limit := 2, window := 60, buckets := fun _ => [] }

/-! ## Identity: bootstrap and API keys -/

structure TenantRow where
  id : Nat
  name : String
deriving DecidableEq, Repr

structure ApiKeyRow where
  id : Nat
  tenant_id : Nat
  key_hash : String
  label : String
  is_active : Bool
  revoked_at : Option Nat
  role : String
deriving DecidableEq, Repr

structure IdentityDB where
  tenants : List TenantRow
  api_keys : List ApiKeyRow
deriving DecidableEq, Repr

/-- clincore.api.bootstrap.bootstrap_tenant after the token check, inside
    one transaction.  h is the _hash_key digest of the raw key.  The
    INSERT ... ON CONFLICT (name) DO NOTHING inserts only when no tenant
    of that name exists (the conflict target is the unique index on the
    name column); the following SELECT by name resolves the id actually
    stored; then exactly one new active API key row is inserted for that
    tenant and the raw key is returned in the response. -/
def bootstrap_tenant (h : String → String) (db : IdentityDB)
    (tenant_name : String) (freshTenant freshKey : Nat) (rawKey : String) :
    IdentityDB × Nat × String :=
  let tenants2 :=
    if db.tenants.any (fun t => t.name = tenant_name) then db.tenants
    else db.tenants ++ [{ id := freshTenant, name := tenant_name }]
  let tid :=
    match tenants2.find? (fun t => t.name = tenant_name) with
    | some t => t.id
    | none => freshTenant
  let key : ApiKeyRow :=
    { id := freshKey, tenant_id := tid, key_hash := h rawKey,
      label := "bootstrap-" ++ tenant_name, is_active := true,
      revoked_at := none, role := "user" }
  ({ tenants := tenants2, api_keys := db.api_keys ++ [key] }, tid, rawKey)

/-- One bootstrap invocation per input triple (fresh tenant id, fresh key
    id, raw key), collecting the responses in call order. -/
def bootstrap_fold (h : String → String) (db : IdentityDB)
    (tenant_name : String) :
    List (Nat × Nat × String) → IdentityDB × List (Nat × String)
  | [] => (db, [])
  | (ft, fk, raw) :: rest =>
    let step := bootstrap_tenant h db tenant_name ft fk raw
    let tail := bootstrap_fold h step.1 tenant_name rest
    (tail.1, (step.2.1, step.2.2) :: tail.2)

/-- clincore.api.auth_api_keys.get_api_key_tenant: a key authenticates iff
    some row matches its hash with is_active true and revoked_at null. -/
def get_api_key_tenant (h : String → String) (keys : List ApiKeyRow)
    (x_api_key : Option String) : Except HttpError Nat :=
  match x_api_key with
  | none => .error ⟨401, "Missing X-API-Key header"⟩
  | some k =>
    match keys.find? (fun r =>
        r.key_hash = h k && r.is_active && r.revoked_at = none) with
    | none => .error ⟨401, "Invalid or inactive API key"⟩
    | some r => .ok r.tenant_id

/-- clincore.api.auth_api_keys.rotate_api_key: authenticate the presented
    key, then in one transaction set is_active=false on every row whose
    key_hash equals the presented hash and insert one new active row for
    the resolved tenant, returning the new raw key and the tenant id. -/
def rotate_api_key (h : String → String) (keys : List ApiKeyRow)
    (x_api_key : Option String) (newRaw : String) (freshId : Nat) :
    Except HttpError (List ApiKeyRow × Nat × String) :=
  match x_api_key with
  | none => .error ⟨401, "Missing X-API-Key header"⟩
  | some k =>
    match get_api_key_tenant h keys (some k) with
    | .error e => .error e
    | .ok tid =>
      let oldHash := h k
      let keys2 := keys.map (fun r =>
        if r.key_hash = oldHash then { r with is_active := false } else r)
      let keys3 := keys2 ++
        [{ id := freshId, tenant_id := tid, key_hash := h newRaw,
           label := "rotated", is_active := true, revoked_at := none,
           role := "user" }]
      .ok (keys3, tid, newRaw)

/-! ## Feedback intake (clincore.api.feedback, feedback_router) -/

/-- Whitespace stripped by the Python str.strip default: space and the
    ASCII control whitespace characters.  (Python also strips a handful of
    Unicode space characters; the claims do not depend on the exact
    whitespace alphabet.) -/
def isPySpace (c : Char) : Bool :=
  c = ' ' || c.toNat = 9 || c.toNat = 10 || c.toNat = 11 || c.toNat = 12 ||
    c.toNat = 13

/-- Python str.strip: drop whitespace from both ends. -/
def pyStrip (s : String) : String :=
  String.mk (((s.data.dropWhile isPySpace).reverse.dropWhile isPySpace).reverse)

/-- FeedbackIn.cap_predicted_top3: take the first five entries, strip each
    and drop the blank ones; reject when nothing remains. -/
def cap_predicted_top3 (v : List String) : Option (List String) :=
  let capped := ((v.take 5).map pyStrip).filter (fun s => s ≠ "")
  if capped = [] then none else some capped

/-- post_feedback: the stored predicted_top3 is the validated list when it
    already contains predicted_top1, otherwise predicted_top1 followed by
    the first four remaining entries. -/
def stored_predicted_top3 (predicted_top1 : String)
    (capped : List String) : List String :=
  if predicted_top1 ∈ capped then capped else predicted_top1 :: capped.take 4

/-! ## Concrete instances used to witness the theorems -/

/-- Identity digest instantiating the abstract hash parameter: any
    function of the canonical bytes satisfies the lifecycle theorems. -/
def hid : String → String := fun s => s

/-- A draft case owned by tenant 7. -/
def exDraftRow : CaseRow :=
  { id := 1, tenant_id := 7, patient_id := 3, status := "draft",
    input_payload := "\x7b\x7d", random_seed := some "0",
    ranking_snapshot := none, result_signature := none,
    finalized_at := none, replay_verified_at := none,
    replay_verification_ok := none, replay_verification_details := none,
    billing_status := "free", created_at := 0, updated_at := 0 }

/-- Engine state holding the single draft case. -/
def exDraftDb : EngineDB := { cases := [exDraftRow], case_results := [] }

/-- The signature the identity digest assigns to the placeholder
    snapshot. -/
def exSig : String := finalize_canonical_bytes [placeholderEntry]

/-- The case_results row finalize inserts for case 1. -/
def exResultRow : CaseResultRow :=
  { id := 50, case_id := 1, rank := 1, remedy_name := "TestRemedy",
    raw_score := "1.0" }

/-- Engine state after finalizing the draft case at timestamp 5. -/
def exFinalDb : EngineDB :=
  { cases := [finalizeUpd [placeholderEntry] exSig 5 exDraftRow],
    case_results := [exResultRow] }

/-- A state holding two draft rows with the same id, on which the gated
    update reports a rowcount other than one. -/
def dupDraftDb : EngineDB :=
  { cases := [exDraftRow, exDraftRow], case_results := [] }

/-- A paid-tier case row owned by tenant 9. -/
def exPaidRow : CaseRow :=
  { exDraftRow with id := 2, tenant_id := 9, billing_status := "paid" }

/-- Engine state holding the single paid case. -/
def exPaidDb : EngineDB := { cases := [exPaidRow], case_results := [] }

/-- The single active key of tenant 7 before rotation. -/
def wOldKey : ApiKeyRow :=
  { id := 0, tenant_id := 7, key_hash := "K", label := "L",
    is_active := true, revoked_at := none, role := "user" }

/-- The same key after rotation deactivates it. -/
def wOldKeyOff : ApiKeyRow := { wOldKey with is_active := false }

/-- The key inserted by the rotation. -/
def wNewKey : ApiKeyRow :=
  { id := 1, tenant_id := 7, key_hash := "N", label := "rotated",
    is_active := true, revoked_at := none, role := "user" }

/-! # Theorems -/

/-! ## Helper lemmas on the SQL comparison operators -/

lemma sqlNotDistinct_true {α : Type} [DecidableEq α] (a b : Option α) :
    sqlNotDistinct a b = true ↔ a = b := by
  simp [sqlNotDistinct]

lemma sqlDistinct_true {α : Type} [DecidableEq α] (a b : Option α) :
    sqlDistinct a b = true ↔ a ≠ b := by
  simp [sqlDistinct, sqlNotDistinct]

lemma sqlEq_true {α : Type} [DecidableEq α] (a b : Option α) :
    sqlEq a b = true ↔ ∃ x, a = some x ∧ b = some x := by
  cases a <;> cases b <;> simp [sqlEq, eq_comm]

/-- C1: the canonical byte sequences of finalize_case and verify_replay
    disagree: on a snapshot whose remedy name holds the non-ASCII
    character e-acute, finalize (json.dumps with its default
    ensure_ascii=True) escapes the character while verify-replay
    (ensure_ascii=False) emits raw UTF-8, so the two byte strings differ
    and the recomputed digest cannot match the stored signature; on the
    all-ASCII placeholder snapshot that the v0.3.x finalize actually
    stores, the two byte strings coincide. -/
theorem C1_canonicalization_mismatch :
    finalize_canonical_bytes [accentedEntry] ≠
      verify_canonical_bytes [accentedEntry] ∧
    finalize_canonical_bytes [placeholderEntry] =
      verify_canonical_bytes [placeholderEntry] := by
  exact ⟨by decide, by decide⟩

/-- C2 (amended): the immutability trigger refuses every delete, and
    permits an update of a finalized case exactly when at least one of the
    three replay columns changes and the six checked columns (status,
    result_signature, ranking_snapshot, finalized_at, input_payload,
    random_seed) are unchanged; columns outside that list are not
    compared. -/
theorem C2_trigger_scope :
    (∀ old, enforce_case_immutability (.delete old) = false) ∧
    (∀ old new, enforce_case_immutability (.update old new) = true ↔
      (old.status ≠ "finalized" ∨
        ((new.replay_verified_at ≠ old.replay_verified_at ∨
            new.replay_verification_ok ≠ old.replay_verification_ok ∨
            new.replay_verification_details ≠ old.replay_verification_details) ∧
          new.status = old.status ∧
          (∃ s, new.result_signature = some s ∧ old.result_signature = some s) ∧
          new.ranking_snapshot = old.ranking_snapshot ∧
          new.finalized_at = old.finalized_at ∧
          new.input_payload = old.input_payload ∧
          new.random_seed = old.random_seed))) := by
  constructor
  · intro old; rfl
  · intro old new
    by_cases hst : old.status = "finalized"
    · simp [enforce_case_immutability, hst, sqlDistinct_true, sqlNotDistinct_true,
        sqlEq_true, and_assoc, or_assoc]
    · simp [enforce_case_immutability, hst]

/-- C2 counterexample: an update of a finalized case that stamps a replay
    column and at the same time rewrites billing_status, a non-replay
    column, is permitted by the trigger, against the claim that every
    other field must stay byte-identical. -/
theorem C2_counterexample_trigger :
    enforce_case_immutability (.update trigOld trigNew) = true ∧
    trigOld.status = "finalized" ∧
    trigNew.billing_status ≠ trigOld.billing_status := by
  refine ⟨by decide, rfl, by decide⟩

/-- C3 (amended): opening a tenant-bound session with a missing or empty
    tenant identity raises the invalid-argument error before any statement
    runs.  With the session variable unset the tables diverge: the
    policies of migration 0001 (users, patients, cases) and v035
    (access_logs) match no rows, so such reads return zero rows; the v037
    usage_events policy (shared by v046 mcare_feedback) references the
    variable without missing_ok and makes any read of a row abort with an
    error instead; and audit_logs (v032) and clinical_feedback (v045)
    carry tenant_id with row level security never enabled, so an unbound
    read of them returns every row, fail-open. -/
theorem C3_unset_binding_fail_closed :
    tenant_session none = .err "tenant_id is required (fail-closed)" ∧
    tenant_session (some "") = .err "tenant_id is required (fail-closed)" ∧
    (∀ rows, run_select policy_tenant_isolation_core rows none = .ok []) ∧
    (∀ rows, run_select policy_tenant_isolation_access_logs rows none = .ok []) ∧
    (∀ r rows, run_select policy_usage_events_tenant_isolation (r :: rows) none =
      .error "unrecognized configuration parameter app.tenant_id") ∧
    (∀ rows, run_select audit_logs_visibility rows none = .ok rows) ∧
    (∀ rows, run_select clinical_feedback_visibility rows none = .ok rows) := by
  refine ⟨rfl, rfl, ?_, ?_, ?_, ?_, ?_⟩
  · intro rows
    induction rows with
    | nil => rfl
    | cons r t ih => simp [run_select, policy_tenant_isolation_core, ih]
  · intro rows
    induction rows with
    | nil => rfl
    | cons r t ih => simp [run_select, policy_tenant_isolation_access_logs, ih]
  · intro r rows
    rfl
  · intro rows
    induction rows with
    | nil => rfl
    | cons r t ih => simp [run_select, audit_logs_visibility, ih]
  · intro rows
    induction rows with
    | nil => rfl
    | cons r t ih => simp [run_select, clinical_feedback_visibility, ih]

/-- C3 counterexample: without a tenant binding, not every
    tenant-partitioned table returns zero rows.  A read of a usage_events
    row aborts with the unconfigured-parameter error (the v037 policy
    omits the missing_ok flag of current_setting), and a read of
    audit_logs, which has no row level security at all, returns every
    stored row. -/
theorem C3_counterexample_unset_reads :
    (run_select policy_usage_events_tenant_isolation
        ["33333333-3333-3333-3333-333333333333"] none =
      .error "unrecognized configuration parameter app.tenant_id" ∧
     run_select policy_usage_events_tenant_isolation
        ["33333333-3333-3333-3333-333333333333"] none ≠ .ok []) ∧
    (run_select audit_logs_visibility
        ["11111111-1111-1111-1111-111111111111",
         "22222222-2222-2222-2222-222222222222"] none =
      .ok ["11111111-1111-1111-1111-111111111111",
           "22222222-2222-2222-2222-222222222222"] ∧
     run_select audit_logs_visibility
        ["11111111-1111-1111-1111-111111111111",
         "22222222-2222-2222-2222-222222222222"] none ≠ .ok []) := by
  refine ⟨⟨rfl, fun h => Except.noConfusion h⟩, ⟨rfl, fun h => ?_⟩⟩
  exact absurd (Except.ok.inj h) (by decide)

/-! ## Finalize lifecycle lemmas -/

lemma find_map_gated (id : Nat) (snapshot : List RankingEntry) (sig : String)
    (ts : Nat) :
    ∀ l : List CaseRow,
      (gated_update l id snapshot sig ts).1.find? (fun c => c.id = id) =
        (l.find? (fun c => c.id = id)).map
          (fun c => if c.status = "draft" then finalizeUpd snapshot sig ts c else c) := by
  intro l
  induction l with
  | nil => rfl
  | cons c t ih =>
    by_cases hc : c.id = id
    · by_cases hd : c.status = "draft"
      · simp [gated_update, List.find?, hc, hd, finalizeUpd]
      · simp [gated_update, List.find?, hc, hd]
    · simpa [gated_update, List.find?, hc] using ih

lemma finalize_case_not_draft (h : String → String) (db : EngineDB)
    (id ts rid : Nat) (row : CaseRow)
    (hl : lookup_case db.cases id = some row) (hd : row.status ≠ "draft") :
    finalize_case h db id ts rid =
      .error ⟨400, "Only draft cases can be finalized"⟩ := by
  simp [finalize_case, hl, hd]

lemma finalize_case_rowcount (h : String → String) (db : EngineDB)
    (id ts rid : Nat) (row : CaseRow)
    (hl : lookup_case db.cases id = some row) (hd : row.status = "draft")
    (hc : (db.cases.filter (fun c => c.id = id && c.status = "draft")).length ≠ 1) :
    finalize_case h db id ts rid =
      .error ⟨400, "Only draft cases can be finalized"⟩ := by
  simp [finalize_case, hl, hd, gated_update, hc]

lemma finalize_case_ok_finalized (h : String → String) (db : EngineDB)
    (id ts rid : Nat) (db2 : EngineDB) (sig : String)
    (hok : finalize_case h db id ts rid = .ok (db2, sig)) :
    ∃ row2, lookup_case db2.cases id = some row2 ∧ row2.status = "finalized" := by
  cases hl : lookup_case db.cases id with
  | none => simp [finalize_case, hl] at hok
  | some row =>
    by_cases hd : row.status = "draft"
    · simp only [finalize_case, hl, hd, if_true] at hok
      split at hok
      · rename_i hcount
        rw [Except.ok.injEq, Prod.mk.injEq] at hok
        obtain ⟨hdb2, hsig⟩ := hok
        subst hdb2
        show ∃ row2, (gated_update db.cases id _ _ ts).1.find? (fun c => c.id = id) =
          some row2 ∧ row2.status = "finalized"
        rw [find_map_gated, show db.cases.find? (fun c => c.id = id) = some row from hl]
        simp only [Option.map_some', hd, if_true]
        exact ⟨_, rfl, rfl⟩
      · exact absurd hok (by simp)
    · simp [finalize_case, hl, hd] at hok

/-- C4: finalize is one-shot.  If the case is present but not draft, or
    the gated update WHERE id AND status = draft touches a rowcount other
    than one, finalize aborts with the 400 lifecycle error; and after any
    successful finalize, a second finalize of the same case always
    returns that error. -/
theorem C4_finalize_one_shot :
    (∀ (h : String → String) (db : EngineDB) (id ts rid : Nat) (row : CaseRow),
        lookup_case db.cases id = some row → row.status ≠ "draft" →
        finalize_case h db id ts rid =
          .error ⟨400, "Only draft cases can be finalized"⟩) ∧
    (∀ (h : String → String) (db : EngineDB) (id ts rid : Nat) (row : CaseRow),
        lookup_case db.cases id = some row → row.status = "draft" →
        (db.cases.filter (fun c => c.id = id && c.status = "draft")).length ≠ 1 →
        finalize_case h db id ts rid =
          .error ⟨400, "Only draft cases can be finalized"⟩) ∧
    (∀ (h : String → String) (db : EngineDB) (id ts rid : Nat)
        (db2 : EngineDB) (sig : String),
        finalize_case h db id ts rid = .ok (db2, sig) →
        ∀ ts2 rid2, finalize_case h db2 id ts2 rid2 =
          .error ⟨400, "Only draft cases can be finalized"⟩) := by
  refine ⟨finalize_case_not_draft, finalize_case_rowcount,
    fun h db id ts rid db2 sig hok ts2 rid2 => ?_⟩
  obtain ⟨row2, hl2, hs2⟩ := finalize_case_ok_finalized h db id ts rid db2 sig hok
  exact finalize_case_not_draft h db2 id ts2 rid2 row2 hl2 (by rw [hs2]; decide)

/-- C4 witness: on a one-case database the draft finalizes once and the
    second finalize returns the 400 lifecycle error; a duplicate-id state
    drives the rowcount branch to the same error. -/
theorem C4_finalize_one_shot_witness :
    finalize_case hid exFinalDb 1 6 51 =
      .error ⟨400, "Only draft cases can be finalized"⟩ ∧
    finalize_case hid dupDraftDb 1 5 50 =
      .error ⟨400, "Only draft cases can be finalized"⟩ := by
  constructor
  · exact C4_finalize_one_shot.2.2 hid exDraftDb 1 5 50 exFinalDb exSig
      (by rfl) 6 51
  · exact C4_finalize_one_shot.2.1 hid dupDraftDb 1 5 50 exDraftRow
      (by decide) (by decide) (by decide)

/-- C5 counterexample: a tenant in the free tier (nothing marks it paid;
    new tenants default to free) with 2000 usage events, but with no case
    row yet, is not refused: the billing query selects from cases and
    finds no row, so the gate is skipped and the create proceeds. -/
theorem C5_counterexample_zero_case_tenant :
    claim_free_tier { cases := [], case_results := [] } 7 = true ∧
    (2000 : Nat) > 1000 ∧
    (create_case { cases := [], case_results := [] } 7 2000 42 3 0 "\x7b\x7d").isOk
      = true := by
  refine ⟨rfl, by decide, rfl⟩

/-- C5 (amended): the gate derives the tier from one arbitrary existing
    case row of the tenant.  When such a row exists and reads free while
    the usage count exceeds 1000, the create is refused with 402 and
    nothing is inserted; when the selected row reads paid or subscription
    the create proceeds; when the tenant has no case row the gate is
    skipped and the create proceeds regardless of usage. -/
theorem C5_billing_gate :
    ∀ (db : EngineDB) (tenant usage newId patient ts : Nat) (payload : String),
      (∀ row, (db.cases.filter (fun c => c.tenant_id = tenant)).head? = some row →
        ((row.billing_status = "free" ∧ usage > 1000) →
          create_case db tenant usage newId patient ts payload =
            .error ⟨402, "Free tier limit exceeded. Please upgrade to continue."⟩) ∧
        (row.billing_status ≠ "free" →
          (create_case db tenant usage newId patient ts payload).isOk = true)) ∧
      ((db.cases.filter (fun c => c.tenant_id = tenant)).head? = none →
        (create_case db tenant usage newId patient ts payload).isOk = true) := by
  intro db tenant usage newId patient ts payload
  constructor
  · intro row hrow
    constructor
    · rintro ⟨hfree, husage⟩
      simp [create_case, hrow, hfree, husage]
    · intro hnf
      simp [create_case, hrow, hnf, Except.isOk, Except.toBool]
  · intro hnone
    simp [create_case, hnone, Except.isOk, Except.toBool]

/-- C5 witness: a free one-case tenant over quota receives 402, a paid
    one-case tenant over quota is admitted. -/
theorem C5_billing_gate_witness :
    create_case exDraftDb 7 2000 42 3 0 "p" =
      .error ⟨402, "Free tier limit exceeded. Please upgrade to continue."⟩ ∧
    (create_case exPaidDb 9 5000 43 3 0 "p").isOk = true := by
  constructor
  · exact ((C5_billing_gate exDraftDb 7 2000 42 3 0 "p").1 exDraftRow
      (by decide)).1 ⟨rfl, by decide⟩
  · exact ((C5_billing_gate exPaidDb 9 5000 43 3 0 "p").1 exPaidRow
      (by decide)).2 (by decide)

/-! ## Rate limiter lemmas -/

lemma dropWhile_le_eq_filter (c : ℤ) :
    ∀ dq : List ℤ, List.Sorted (· ≤ ·) dq →
      dq.dropWhile (fun t => t ≤ c) = dq.filter (fun t => !(t ≤ c)) := by
  intro dq h
  induction dq with
  | nil => rfl
  | cons a t ih =>
    rw [List.sorted_cons] at h
    obtain ⟨ha, ht⟩ := h
    by_cases hac : a ≤ c
    · simp [List.dropWhile, List.filter, hac, ih ht]
    · have : t.filter (fun t => !(t ≤ c)) = t := by
        refine List.filter_eq_self.mpr (fun x hx => ?_)
        simp only [Bool.not_eq_true']
        exact decide_eq_false (fun hxc => hac (le_trans (ha x hx) hxc))
      simp [List.dropWhile, List.filter, hac, this]

/-- C6 counterexample: with limit 1 and a recorded timestamp aged exactly
    one window, is_allowed admits (the eviction loop drops timestamps at
    or older than now - window), while the admission rule of the claim,
    which drops only timestamps strictly older than now - window, would
    reject because one timestamp remains and the limit is reached. -/
theorem C6_counterexample_boundary :
    (rlBoundary.is_allowed "T" 60).1 = true ∧
    claim_admit rlBoundary "T" 60 = false := by
  exact ⟨by decide, by decide⟩

/-- C6 (amended): is_allowed admits iff, after dropping the leading
    timestamps at or older than now minus the window (for the
    chronologically ordered deques the limiter builds, exactly the
    timestamps at or older than the cutoff), the remaining count is
    strictly below the limit; with limit 2 three successive attempts by
    one tenant in one window yield admit, admit, reject while a
    simultaneous attempt by another tenant is admitted; the default
    configuration is limit 60, window 60 seconds. -/
theorem C6_sliding_window :
    (∀ (st : TenantRateLimiter) (key : String) (now : ℤ),
        ((st.is_allowed key now).1 = true ↔
          (rl_evict st.window now (st.buckets key)).length < st.limit)) ∧
    (∀ (window now : ℤ) (dq : List ℤ), List.Sorted (· ≤ ·) dq →
        rl_evict window now dq = dq.filter (fun t => !(t ≤ now - window))) ∧
    ((rlScenario.is_allowed "T" 0).1 = true ∧
      (((rlScenario.is_allowed "T" 0).2.is_allowed "T" 1).1 = true) ∧
      ((((rlScenario.is_allowed "T" 0).2.is_allowed "T" 1).2.is_allowed
          "T" 2).1 = false) ∧
      (((((rlScenario.is_allowed "T" 0).2.is_allowed "T" 1).2.is_allowed
          "T" 2).2.is_allowed "U" 2).1 = true)) ∧
    TenantRateLimiter.mkDefault.limit = 60 ∧
    TenantRateLimiter.mkDefault.window = 60 := by
  refine ⟨?_, ?_, ⟨by decide, by decide, by decide, by decide⟩, rfl, rfl⟩
  · intro st key now
    have hfst : (st.is_allowed key now).1 =
        !(decide (st.limit ≤ (rl_evict st.window now (st.buckets key)).length)) := by
      unfold TenantRateLimiter.is_allowed
      by_cases hc : st.limit ≤ (rl_evict st.window now (st.buckets key)).length <;>
        simp [hc]
    rw [hfst]
    simp [Nat.not_le]
  · intro window now dq hs
    exact dropWhile_le_eq_filter (now - window) dq hs

/-- C6 witness: the eviction characterization applied to a concrete
    ordered deque. -/
theorem C6_sliding_window_witness :
    rl_evict 60 60 [0, 30] = [0, 30].filter (fun t => !(t ≤ (0 : ℤ))) := by
  have := C6_sliding_window.2.1 60 60 [0, 30] (by decide)
  simpa using this

/-- C7: the exception of a failed access-log append is logged and
    swallowed and the handler still builds its result, but the claim that
    the surrounding business transaction is never rolled back is false of
    the program: the INSERT runs on the same session inside the same
    transaction with no savepoint, so a server-side failure aborts the
    transaction, the commit at tenant_session exit fails and the
    replay-stamp update of verify_replay is rolled back.  Only a failure
    that never reaches the server leaves the transaction committable.
    Evaluated here at a finalized one-case state for both the VERIFY and
    the VIEW append. -/
theorem C7_append_aborts_transaction :
    ((verify_replay hid exFinalDb 1 9 (.serverError "boom")).response =
      (verify_replay hid exFinalDb 1 9 .ok).response ∧
     (verify_replay hid exFinalDb 1 9 (.serverError "boom")).warnings =
      ["access_log insert failed (non-fatal): boom"]) ∧
    ((verify_replay hid exFinalDb 1 9 (.serverError "boom")).committed = false ∧
     (verify_replay hid exFinalDb 1 9 (.serverError "boom")).db_after =
      exFinalDb) ∧
    ((verify_replay hid exFinalDb 1 9 .ok).committed = true ∧
     (verify_replay hid exFinalDb 1 9 .ok).db_after ≠ exFinalDb ∧
     (verify_replay hid exFinalDb 1 9 (.clientError "bad parameter")).committed
      = true) ∧
    ((get_case exDraftDb 1 (.serverError "boom")).response = .ok exDraftRow ∧
     (get_case exDraftDb 1 (.serverError "boom")).warnings =
      ["access_log insert failed (non-fatal): boom"] ∧
     (get_case exDraftDb 1 (.serverError "boom")).committed = false ∧
     (get_case exDraftDb 1 .ok).committed = true) := by
  refine ⟨⟨rfl, rfl⟩, ⟨rfl, rfl⟩, ⟨rfl, by decide, rfl⟩, rfl, rfl, rfl, rfl⟩

/-! ## Bootstrap lemmas -/

lemma filter_singleton_find {α : Type} (p : α → Bool) :
    ∀ (l : List α) (x : α), l.filter p = [x] → l.find? p = some x := by
  intro l
  induction l with
  | nil => intro x hx; simp at hx
  | cons a t ih =>
    intro x hx
    by_cases pa : p a
    · rw [List.filter_cons_of_pos pa] at hx
      rw [List.find?_cons_of_pos _ pa]
      exact congrArg some (List.cons.injEq .. ▸ hx).1
    · rw [List.filter_cons_of_neg (by simpa using pa)] at hx
      rw [List.find?_cons_of_neg _ (by simpa using pa)]
      exact ih x hx

lemma find?_append_none {α : Type} (p : α → Bool) (l1 l2 : List α)
    (h : l1.find? p = none) : (l1 ++ l2).find? p = l2.find? p := by
  induction l1 with
  | nil => rfl
  | cons a t ih =>
    by_cases pa : p a
    · rw [List.find?_cons_of_pos _ pa] at h; cases h
    · rw [List.find?_cons_of_neg _ (by simpa using pa)] at h
      rw [List.cons_append, List.find?_cons_of_neg _ (by simpa using pa)]
      exact ih h

lemma bootstrap_from_one (h : String → String) (db : IdentityDB)
    (name : String) (ft fk : Nat) (raw : String) (tid : Nat)
    (hP : db.tenants.filter (fun t => t.name = name) = [{ id := tid, name := name }]) :
    bootstrap_tenant h db name ft fk raw =
      ({ tenants := db.tenants,
         api_keys := db.api_keys ++
           [{ id := fk, tenant_id := tid, key_hash := h raw,
              label := "bootstrap-" ++ name, is_active := true,
              revoked_at := none, role := "user" }] }, tid, raw) := by
  have hfind : db.tenants.find? (fun t => t.name = name) =
      some { id := tid, name := name } :=
    filter_singleton_find _ db.tenants _ hP
  have hany : db.tenants.any (fun t => t.name = name) = true := by
    have hmem : ({ id := tid, name := name } : TenantRow) ∈ db.tenants := by
      have : ({ id := tid, name := name } : TenantRow) ∈
          db.tenants.filter (fun t => t.name = name) := by
        rw [hP]; exact List.mem_singleton.mpr rfl
      exact (List.mem_filter.mp this).1
    exact List.any_eq_true.mpr ⟨_, hmem, by simp⟩
  simp [bootstrap_tenant, hany, hfind]

lemma bootstrap_fold_from_one (h : String → String) (name : String) (tid : Nat) :
    ∀ (inputs : List (Nat × Nat × String)) (db : IdentityDB),
      db.tenants.filter (fun t => t.name = name) = [{ id := tid, name := name }] →
      bootstrap_fold h db name inputs =
        ({ tenants := db.tenants,
           api_keys := db.api_keys ++ inputs.map (fun i =>
             { id := i.2.1, tenant_id := tid, key_hash := h i.2.2,
               label := "bootstrap-" ++ name, is_active := true,
               revoked_at := none, role := "user" }) },
         inputs.map (fun i => (tid, i.2.2))) := by
  intro inputs
  induction inputs with
  | nil =>
    intro db hP
    simp [bootstrap_fold]
  | cons i rest ih =>
    intro db hP
    obtain ⟨ft, fk, raw⟩ := i
    have hstep := bootstrap_from_one h db name ft fk raw tid hP
    simp only [bootstrap_fold, hstep]
    rw [ih { tenants := db.tenants,
             api_keys := db.api_keys ++
               [{ id := fk, tenant_id := tid, key_hash := h raw,
                  label := "bootstrap-" ++ name, is_active := true,
                  revoked_at := none, role := "user" }] } hP]
    simp

lemma bootstrap_from_none (h : String → String) (db : IdentityDB)
    (name : String) (ft fk : Nat) (raw : String)
    (hP : db.tenants.filter (fun t => t.name = name) = []) :
    bootstrap_tenant h db name ft fk raw =
      ({ tenants := db.tenants ++ [{ id := ft, name := name }],
         api_keys := db.api_keys ++
           [{ id := fk, tenant_id := ft, key_hash := h raw,
              label := "bootstrap-" ++ name, is_active := true,
              revoked_at := none, role := "user" }] }, ft, raw) := by
  have hall : ∀ x ∈ db.tenants, ¬ x.name = name := by
    intro x hx
    have := List.filter_eq_nil_iff.mp hP x hx
    simpa using this
  have hnone : db.tenants.find? (fun t => t.name = name) = none := by
    rw [List.find?_eq_none]
    intro x hx
    simpa using hall x hx
  have hany : db.tenants.any (fun t => t.name = name) = false := by
    rw [List.any_eq_false]
    intro x hx
    simpa using hall x hx
  have happ : (db.tenants ++ [({ id := ft, name := name } : TenantRow)]).find?
      (fun t => t.name = name) = some { id := ft, name := name } := by
    rw [find?_append_none _ _ _ hnone]
    simp [List.find?]
  simp [bootstrap_tenant, hany, happ]

/-- C8: bootstrap is idempotent on the tenant name.  Starting from a
    state with at most one tenant of the given name (the unique-name
    constraint backing ON CONFLICT), any nonempty sequence of successful
    bootstrap calls leaves exactly one tenant row with that name, every
    call returns that tenant id, and the api_keys table grows by exactly
    one new active key per call, each returned to its caller in
    plaintext once. -/
theorem C8_bootstrap_idempotent :
    ∀ (h : String → String) (db : IdentityDB) (name : String)
      (inputs : List (Nat × Nat × String)),
      (db.tenants.filter (fun t => t.name = name)).length ≤ 1 →
      inputs ≠ [] →
      ∃ tid,
        (bootstrap_fold h db name inputs).1.tenants.filter
            (fun t => t.name = name) = [{ id := tid, name := name }] ∧
        (bootstrap_fold h db name inputs).2 =
          inputs.map (fun i => (tid, i.2.2)) ∧
        (bootstrap_fold h db name inputs).1.api_keys =
          db.api_keys ++ inputs.map (fun i =>
            { id := i.2.1, tenant_id := tid, key_hash := h i.2.2,
              label := "bootstrap-" ++ name, is_active := true,
              revoked_at := none, role := "user" }) := by
  intro h db name inputs hlen hne
  cases hfil : db.tenants.filter (fun t => t.name = name) with
  | nil =>
    cases inputs with
    | nil => exact absurd rfl hne
    | cons i rest =>
      obtain ⟨ft, fk, raw⟩ := i
      have hstep := bootstrap_from_none h db name ft fk raw hfil
      have hP2 : (db.tenants ++ [({ id := ft, name := name } : TenantRow)]).filter
          (fun t => t.name = name) = [{ id := ft, name := name }] := by
        rw [List.filter_append, hfil]
        simp
      have hfold : bootstrap_fold h db name ((ft, fk, raw) :: rest) =
          ({ tenants := db.tenants ++ [{ id := ft, name := name }],
             api_keys := (db.api_keys ++
               [{ id := fk, tenant_id := ft, key_hash := h raw,
                  label := "bootstrap-" ++ name, is_active := true,
                  revoked_at := none, role := "user" }]) ++ rest.map (fun i =>
                 { id := i.2.1, tenant_id := ft, key_hash := h i.2.2,
                   label := "bootstrap-" ++ name, is_active := true,
                   revoked_at := none, role := "user" }) },
           (ft, raw) :: rest.map (fun i => (ft, i.2.2))) := by
        simp only [bootstrap_fold, hstep]
        rw [bootstrap_fold_from_one h name ft rest
          { tenants := db.tenants ++ [{ id := ft, name := name }],
            api_keys := db.api_keys ++
              [{ id := fk, tenant_id := ft, key_hash := h raw,
                 label := "bootstrap-" ++ name, is_active := true,
                 revoked_at := none, role := "user" }] } hP2]
      refine ⟨ft, ?_, ?_, ?_⟩
      · rw [hfold]
        exact hP2
      · rw [hfold]
        simp
      · rw [hfold]
        simp
  | cons x xs =>
    have hxs : xs = [] := by
      rw [hfil] at hlen
      simpa using hlen
    subst hxs
    have hx : x.name = name := by
      have hmem : x ∈ db.tenants.filter (fun t => t.name = name) := by
        rw [hfil]
        exact List.mem_singleton.mpr rfl
      simpa using (List.mem_filter.mp hmem).2
    have hxeq : x = { id := x.id, name := name } := by
      cases x with
      | mk xid xname => simp only at hx; rw [hx]
    rw [hxeq] at hfil
    have hfold := bootstrap_fold_from_one h name x.id inputs db hfil
    refine ⟨x.id, ?_, ?_, ?_⟩
    · rw [hfold]
      exact hfil
    · rw [hfold]
    · rw [hfold]

/-- C8 witness: two bootstrap calls for the same fresh name create one
    tenant and two keys. -/
theorem C8_bootstrap_idempotent_witness :
    ∃ tid,
      (bootstrap_fold hid { tenants := [], api_keys := [] } "acme"
          [(1, 10, "k1"), (2, 20, "k2")]).1.tenants.filter
          (fun t => t.name = "acme") = [{ id := tid, name := "acme" }] ∧
      (bootstrap_fold hid { tenants := [], api_keys := [] } "acme"
          [(1, 10, "k1"), (2, 20, "k2")]).2 =
        [(1, 10, "k1"), (2, 20, "k2")].map (fun i => (tid, i.2.2)) ∧
      (bootstrap_fold hid { tenants := [], api_keys := [] } "acme"
          [(1, 10, "k1"), (2, 20, "k2")]).1.api_keys =
        [] ++ [(1, 10, "k1"), (2, 20, "k2")].map (fun i =>
          { id := i.2.1, tenant_id := tid, key_hash := hid i.2.2,
            label := "bootstrap-" ++ "acme", is_active := true,
            revoked_at := none, role := "user" }) :=
  C8_bootstrap_idempotent hid { tenants := [], api_keys := [] } "acme"
    [(1, 10, "k1"), (2, 20, "k2")] (by decide) (by decide)

/-- C9: rotation, in one transaction, deactivates every row whose hash is
    the presented hash and inserts one new active row for the same
    tenant; afterwards the old key no longer authenticates (valid iff
    is_active and revoked_at null) and the new key authenticates to the
    tenant the presented key resolved to before rotation.  The hash
    hypotheses state that the fresh key collides with nothing, as for
    SHA-256 of a fresh random token. -/
theorem C9_key_rotation :
    ∀ (h : String → String) (keys : List ApiKeyRow) (k newRaw : String)
      (freshId : Nat) (keys3 : List ApiKeyRow) (tid : Nat) (raw : String),
      rotate_api_key h keys (some k) newRaw freshId = .ok (keys3, tid, raw) →
      h k ≠ h newRaw →
      (∀ r ∈ keys, r.key_hash ≠ h newRaw) →
      get_api_key_tenant h keys (some k) = .ok tid ∧
      (∀ r ∈ keys3, r.key_hash = h k → r.is_active = false) ∧
      keys3.length = keys.length + 1 ∧
      get_api_key_tenant h keys3 (some k) =
        .error ⟨401, "Invalid or inactive API key"⟩ ∧
      get_api_key_tenant h keys3 (some newRaw) = .ok tid := by
  intro h keys k newRaw freshId keys3 tid raw hrot hneq hfresh
  cases hauth : get_api_key_tenant h keys (some k) with
  | error e =>
    rw [show rotate_api_key h keys (some k) newRaw freshId =
      (match get_api_key_tenant h keys (some k) with
       | .error e => .error e
       | .ok tid =>
         .ok (keys.map (fun r =>
             if r.key_hash = h k then { r with is_active := false } else r) ++
           [{ id := freshId, tenant_id := tid, key_hash := h newRaw,
              label := "rotated", is_active := true, revoked_at := none,
              role := "user" }], tid, newRaw)) from rfl, hauth] at hrot
    cases hrot
  | ok tid0 =>
    rw [show rotate_api_key h keys (some k) newRaw freshId =
      (match get_api_key_tenant h keys (some k) with
       | .error e => .error e
       | .ok tid =>
         .ok (keys.map (fun r =>
             if r.key_hash = h k then { r with is_active := false } else r) ++
           [{ id := freshId, tenant_id := tid, key_hash := h newRaw,
              label := "rotated", is_active := true, revoked_at := none,
              role := "user" }], tid, newRaw)) from rfl, hauth] at hrot
    rw [Except.ok.injEq, Prod.mk.injEq, Prod.mk.injEq] at hrot
    obtain ⟨hkeys3, htid, hraw⟩ := hrot
    rw [htid] at hkeys3 hauth
    have hshape : ∀ r ∈ keys3, (∃ orig ∈ keys,
        r = if orig.key_hash = h k then { orig with is_active := false } else orig) ∨
        r = { id := freshId, tenant_id := tid, key_hash := h newRaw,
              label := "rotated", is_active := true, revoked_at := none,
              role := "user" } := by
      intro r hr
      rw [← hkeys3] at hr
      rcases List.mem_append.mp hr with hin | hin
      · obtain ⟨orig, ho, heq⟩ := List.mem_map.mp hin
        exact Or.inl ⟨orig, ho, heq.symm⟩
      · exact Or.inr (List.mem_singleton.mp hin)
    have hdeact : ∀ r ∈ keys3, r.key_hash = h k → r.is_active = false := by
      intro r hr hhash
      rcases hshape r hr with ⟨orig, ho, heq⟩ | heq
      · by_cases hko : orig.key_hash = h k
        · rw [heq, if_pos hko]
        · rw [heq, if_neg hko] at hhash ⊢
          exact absurd hhash hko
      · rw [heq] at hhash
        exact absurd hhash hneq.symm
    refine ⟨by rw [htid], hdeact, ?_, ?_, ?_⟩
    · rw [← hkeys3]
      simp
    · have hfind : keys3.find? (fun r =>
          r.key_hash = h k && r.is_active && r.revoked_at = none) = none := by
        rw [List.find?_eq_none]
        intro r hr
        intro hp
        rw [Bool.and_eq_true, Bool.and_eq_true] at hp
        obtain ⟨⟨hh, hact⟩, _⟩ := hp
        have := hdeact r hr (by simpa using hh)
        rw [this] at hact
        cases hact
      simp only [get_api_key_tenant, hfind]
    · have hnone2 : (keys.map (fun r =>
          if r.key_hash = h k then { r with is_active := false } else r)).find?
          (fun r => r.key_hash = h newRaw && r.is_active && r.revoked_at = none)
          = none := by
        rw [List.find?_eq_none]
        intro r hr
        obtain ⟨orig, ho, heq⟩ := List.mem_map.mp hr
        intro hp
        rw [Bool.and_eq_true, Bool.and_eq_true] at hp
        obtain ⟨⟨hh, _⟩, _⟩ := hp
        have hkh : r.key_hash = orig.key_hash := by
          by_cases hko : orig.key_hash = h k
          · rw [← heq]
            rw [if_pos hko]
          · rw [← heq, if_neg hko]
        rw [hkh] at hh
        exact hfresh orig ho (by simpa using hh)
      have hfind2 : keys3.find? (fun r =>
          r.key_hash = h newRaw && r.is_active && r.revoked_at = none) =
          some { id := freshId, tenant_id := tid, key_hash := h newRaw,
                 label := "rotated", is_active := true, revoked_at := none,
                 role := "user" } := by
        rw [← hkeys3, find?_append_none _ _ _ hnone2]
        simp [List.find?]
      simp only [get_api_key_tenant, hfind2]

/-- C9 witness: rotating the single key of tenant 7 deactivates it, the
    old key then fails with 401 and the new key resolves to tenant 7. -/
theorem C9_key_rotation_witness :
    get_api_key_tenant hid [wOldKey] (some "K") = .ok 7 ∧
    (∀ r ∈ [wOldKeyOff, wNewKey], r.key_hash = hid "K" → r.is_active = false) ∧
    ([wOldKeyOff, wNewKey] : List ApiKeyRow).length = [wOldKey].length + 1 ∧
    get_api_key_tenant hid [wOldKeyOff, wNewKey] (some "K") =
      .error ⟨401, "Invalid or inactive API key"⟩ ∧
    get_api_key_tenant hid [wOldKeyOff, wNewKey] (some "N") = .ok 7 :=
  C9_key_rotation hid [wOldKey] "K" "N" 1 [wOldKeyOff, wNewKey] 7 "N" rfl
    (by decide) (by decide)

/-- C10: every accepted feedback insert stores a predicted_top3 of one to
    five non-empty entries that always contains predicted_top1; when
    predicted_top1 is absent from the validated list the stored array is
    predicted_top1 followed by the first four remaining entries; hence a
    chosen_remedy equal to predicted_top1 is always a member of the
    stored predicted_top3. -/
theorem C10_feedback_top3_invariants :
    ∀ (v : List String) (top1 : String) (capped : List String),
      cap_predicted_top3 v = some capped → top1 ≠ "" →
      (1 ≤ (stored_predicted_top3 top1 capped).length ∧
       (stored_predicted_top3 top1 capped).length ≤ 5 ∧
       (∀ s ∈ stored_predicted_top3 top1 capped, s ≠ "") ∧
       top1 ∈ stored_predicted_top3 top1 capped ∧
       (top1 ∉ capped → stored_predicted_top3 top1 capped = top1 :: capped.take 4) ∧
       (∀ chosen, chosen = top1 → chosen ∈ stored_predicted_top3 top1 capped)) := by
  intro v top1 capped hcap htop1
  unfold cap_predicted_top3 at hcap
  by_cases hnil : ((v.take 5).map pyStrip).filter (fun s => s ≠ "") = []
  · rw [if_pos hnil] at hcap
    cases hcap
  · rw [if_neg hnil] at hcap
    rw [Option.some.injEq] at hcap
    subst hcap
    set capped := ((v.take 5).map pyStrip).filter (fun s => s ≠ "") with hcdef
    have hlen5 : capped.length ≤ 5 := by
      calc capped.length ≤ ((v.take 5).map pyStrip).length :=
            List.length_filter_le _ _
        _ = (v.take 5).length := List.length_map _ _
        _ ≤ 5 := by
            rw [List.length_take]
            exact min_le_left _ _
    have hmem : ∀ s ∈ capped, s ≠ "" := by
      intro s hs
      have := (List.mem_filter.mp hs).2
      simpa using this
    have hpos : 0 < capped.length := List.length_pos.mpr hnil
    by_cases hin : top1 ∈ capped
    · rw [stored_predicted_top3, if_pos hin]
      refine ⟨hpos, hlen5, hmem, hin, fun habs => absurd hin habs, ?_⟩
      intro chosen hch
      rw [hch]
      exact hin
    · rw [stored_predicted_top3, if_neg hin]
      have htk : (capped.take 4).length ≤ 4 := by
        rw [List.length_take]
        exact min_le_left _ _
      refine ⟨by simp, ?_, ?_, List.mem_cons_self _ _, fun _ => rfl, ?_⟩
      · simp only [List.length_cons]
        omega
      · intro s hs
        rcases List.mem_cons.mp hs with hh | ht
        · rw [hh]
          exact htop1
        · exact hmem s (List.take_subset _ _ ht)
      · intro chosen hch
        rw [hch]
        exact List.mem_cons_self _ _

/-- C10 witness: a top1 absent from the submitted list is prepended and
    the invariants hold on the stored array. -/
theorem C10_feedback_top3_witness :
    1 ≤ (stored_predicted_top3 "Lyc" ["Nux", "Ars"]).length ∧
    (stored_predicted_top3 "Lyc" ["Nux", "Ars"]).length ≤ 5 ∧
    (∀ s ∈ stored_predicted_top3 "Lyc" ["Nux", "Ars"], s ≠ "") ∧
    "Lyc" ∈ stored_predicted_top3 "Lyc" ["Nux", "Ars"] ∧
    ("Lyc" ∉ (["Nux", "Ars"] : List String) →
      stored_predicted_top3 "Lyc" ["Nux", "Ars"] =
        "Lyc" :: (["Nux", "Ars"] : List String).take 4) ∧
    (∀ chosen, chosen = "Lyc" →
      chosen ∈ stored_predicted_top3 "Lyc" ["Nux", "Ars"]) :=
  C10_feedback_top3_invariants ["Nux", "Ars"] "Lyc" ["Nux", "Ars"]
    (by decide) (by decide)

end ClinCore




